import Mathlib

/-!
Shallow embedding of the pricing core of `streamlit_app.py` (Sneaker WTB
Tracker).  Python floats are modelled as exact rationals; Python's built-in
`round(x, k)` is modelled by rounding half-to-even at `k` decimal places.
Sale dates and the current time are modelled as rational timestamps measured
in days, so the 120-day cutoff of the code becomes `now - 120`.
-/

/-- Rounding of a rational to the nearest integer with ties going to the even
integer, the behaviour of Python's built-in `round` on exactly representable
values. -/
def pyRound (q : ℚ) : ℤ :=
  let f : ℤ := ⌊q⌋
  let r : ℚ := q - (f : ℚ)
  if r < 1/2 then f
  else if 1/2 < r then f + 1
  else if f % 2 = 0 then f else f + 1

/-- Python `round(x, 2)` over the rational model. -/
def round2 (q : ℚ) : ℚ := (pyRound (q * 100) : ℚ) / 100

/-- Python `round(x, 1)` over the rational model. -/
def round1 (q : ℚ) : ℚ := (pyRound (q * 10) : ℚ) / 10

/-- Net payout after fees, from `calculate_net` (lines 19-23 of
`streamlit_app.py`). -/
def calculate_net (price : ℚ) : ℚ :=
  if price < 57 then round2 (price - 4.5 - price * 0.03 - 4.00)
  else round2 (price - price * 0.08 - price * 0.03 - 4.00)

/-- One entry of the sales-activity feed as seen by the loop at lines 85-97 of
`streamlit_app.py`: a parsed sale date (`none` when the `createdAt` field is
missing or fails to parse), the size string, and the amount (`0` when the
field is missing). -/
structure SaleItem where
  createdAt : Option ℚ
  size : String
  amount : ℚ

/-- Processing of one sales-activity entry (lines 85-97): an entry with no
parseable date is skipped; an entry inside the trailing 120-day window whose
size string equals `"UK "` followed by the requested size contributes its
amount exactly when that amount is strictly positive. -/
def processSale (now : ℚ) (uk_size : String) (item : SaleItem) : Option ℚ :=
  match item.createdAt with
  | none => none
  | some d =>
    if now - 120 ≤ d ∧ item.size = "UK " ++ uk_size then
      if 0 < item.amount then some item.amount else none
    else none

/-- The in-window price list built by the sales loop (lines 82-97). -/
def saleFilter (now : ℚ) (uk_size : String) (items : List SaleItem) : List ℚ :=
  items.filterMap (processSale now uk_size)

/-- The record returned by `fetch_stockx_data` on success (lines 99-108). -/
structure FetchResult where
  name : String
  colorway : String
  highest_bid : ℚ
  lowest_ask : ℚ
  num_asks : ℕ
  sales_120d : ℕ
  avg_sale : ℚ
  sales_list : List ℚ

/-- Construction of the fetch result from the in-window sales list `sales`
(lines 99-108): the count is the full length, the raw average is over the
full list, and only the first 50 prices are kept for the payout
calculation. -/
def mkFetchResult (name colorway : String) (highest_bid lowest_ask : ℚ)
    (num_asks : ℕ) (sales : List ℚ) : FetchResult :=
  { name := name
    colorway := colorway
    highest_bid := highest_bid
    lowest_ask := lowest_ask
    num_asks := num_asks
    sales_120d := sales.length
    avg_sale := if sales ≠ [] then round2 (sales.sum / (sales.length : ℚ)) else 0
    sales_list := sales.take 50 }

/-- Average net payout (line 147):
`sum(calculate_net(p) for p in data["sales_list"]) / n if n > 0 else 0`,
where `n = data["sales_120d"]`. -/
def avg_net (data : FetchResult) : ℚ :=
  if 0 < data.sales_120d then
    (data.sales_list.map calculate_net).sum / (data.sales_120d : ℚ)
  else 0

/-- Estimated days to sell (line 148): `120 / n if n > 0 else 999`. -/
def est_days (n : ℕ) : ℚ := if 0 < n then 120 / (n : ℚ) else 999

/-- Tiered ROI target (lines 150-155). -/
def roi_target (d : ℚ) : ℚ :=
  if d < 5 then 0.30
  else if 6 ≤ d ∧ d ≤ 25 then 0.35
  else 0.40

/-- Recommended price (line 157):
`round(avg_net / (1 + roi_target), 2) if avg_net > 0 else 0`. -/
def rec_price (a r : ℚ) : ℚ := if 0 < a then round2 (a / (1 + r)) else 0

/-- ROI percentage against the listed price (line 159):
`round((avg_net - listed_price) / listed_price * 100, 1) if listed_price > 0
else 0`. -/
def roi_pct (a listed : ℚ) : ℚ :=
  if 0 < listed then round1 ((a - listed) / listed * 100) else 0

/-- One row of a platform table (lines 161-177). -/
structure Row where
  sku : String
  brand : String
  model : String
  rowColorway : String
  rowSize : String
  listedPrice : ℚ
  priority : String
  numSales120d : ℕ
  avgSale : ℚ
  avgPayout : ℚ
  roiPctField : ℚ
  highestBid : ℚ
  lowestAsk : ℚ
  recommendedPay : ℚ
  estDaysToSell : ℚ

/-- Row construction in the add-entry handler (lines 145-177). -/
def mkRow (sku size : String) (listed_price : ℚ) (priority : String)
    (data : FetchResult) : Row :=
  let n := data.sales_120d
  let a := avg_net data
  let d := est_days n
  let r := roi_target d
  { sku := sku
    brand := "Auto"
    model := data.name
    rowColorway := data.colorway
    rowSize := size
    listedPrice := listed_price
    priority := priority
    numSales120d := n
    avgSale := data.avg_sale
    avgPayout := round2 a
    roiPctField := roi_pct a listed_price
    highestBid := data.highest_bid
    lowestAsk := data.lowest_ask
    recommendedPay := rec_price a r
    estDaysToSell := round1 d }

/-- The add-entry handler (lines 141-184): on a successful fetch the new row
is appended to the platform table and success is reported; when the fetch
returned nothing the table is left unchanged and an error is shown. -/
def addEntry (table : List Row) (sku size : String) (listed_price : ℚ)
    (priority : String) (result : Option FetchResult) : List Row × Bool :=
  match result with
  | none => (table, false)
  | some data => (table ++ [mkRow sku size listed_price priority data], true)

/-- The whole pricing computation of lines 145-159 as one function of the
in-window price list and the listed price: raw average sale price, average
net payout, estimated days to sell, target ROI, recommended price and ROI
percentage.  The handler's sale count `n` is the length of the list. -/
def pricingOutputs (sales : List ℚ) (listed_price : ℚ) : ℚ × ℚ × ℚ × ℚ × ℚ × ℚ :=
  let data := mkFetchResult "" "" 0 0 0 sales
  let a := avg_net data
  let d := est_days data.sales_120d
  let r := roi_target d
  (data.avg_sale, a, d, r, rec_price a r, roi_pct a listed_price)

/-- Average net payout as a function of the full in-window sales list: the
composition of `mkFetchResult` (which truncates to 50 prices) with
`avg_net` (which divides by the full count). -/
def pipelineAvgNet (sales : List ℚ) : ℚ :=
  avg_net (mkFetchResult "" "" 0 0 0 sales)

/-- Evaluation of the net payout at the price 100, used by several concrete
checks below. -/
lemma calculate_net_at_100 : calculate_net 100 = 85 := by
  norm_num [calculate_net, round2, pyRound]

/-- Inversion on one step of the sales loop: an entry contributes an amount
only when that amount is its own, strictly positive, and its size string is
exactly `"UK "` followed by the requested size. -/
lemma processSale_some_inv (now : ℚ) (uk : String) (it : SaleItem) (a : ℚ)
    (h : processSale now uk it = some a) :
    a = it.amount ∧ 0 < it.amount ∧ it.size = "UK " ++ uk := by
  cases hc : it.createdAt with
  | none => simp [processSale, hc] at h
  | some d =>
    simp only [processSale, hc] at h
    by_cases h1 : now - 120 ≤ d ∧ it.size = "UK " ++ uk
    · rw [if_pos h1] at h
      by_cases h2 : 0 < it.amount
      · rw [if_pos h2] at h
        exact ⟨(Option.some.inj h).symm, h2, h1.2⟩
      · rw [if_neg h2] at h
        simp at h
    · rw [if_neg h1] at h
      simp at h

/-- C3: `calculate_net` returns `round(p - 4.50 - 0.03*p - 4.00, 2)` below
the 57 threshold and `round(p - 0.08*p - 0.03*p - 4.00, 2)` at or above it;
in particular `net(56) = 45.82` and `net(57) = 46.73`. -/
theorem calculate_net_tiered_formula :
    (∀ p : ℚ, calculate_net p =
      if p < 57 then round2 (p - 4.50 - 0.03 * p - 4.00)
      else round2 (p - 0.08 * p - 0.03 * p - 4.00))
    ∧ calculate_net 56 = 45.82 ∧ calculate_net 57 = 46.73 := by
  refine ⟨fun p => ?_, by norm_num [calculate_net, round2, pyRound],
    by norm_num [calculate_net, round2, pyRound]⟩
  unfold calculate_net
  split
  · congr 1; ring
  · congr 1; ring

/-- C4: the target ROI is 0.30 below 5 estimated days, 0.35 from 6 to 25
inclusive, and 0.40 otherwise, so exactly 5 days, the open gap between 5 and
6, and more than 25 days all give 0.40; the boundary values 4, 5, 6, 25, 26
evaluate as the spec lists. -/
theorem roi_target_tiers :
    (∀ d : ℚ, roi_target d =
      if d < 5 then 0.30 else if 6 ≤ d ∧ d ≤ 25 then 0.35 else 0.40)
    ∧ (∀ d : ℚ, 5 ≤ d → d < 6 → roi_target d = 0.40)
    ∧ (∀ d : ℚ, 25 < d → roi_target d = 0.40)
    ∧ roi_target 4 = 0.30 ∧ roi_target 5 = 0.40 ∧ roi_target 6 = 0.35
    ∧ roi_target 25 = 0.35 ∧ roi_target 26 = 0.40 := by
  refine ⟨fun d => rfl, fun d h1 h2 => ?_, fun d h => ?_,
    by norm_num [roi_target], by norm_num [roi_target], by norm_num [roi_target],
    by norm_num [roi_target], by norm_num [roi_target]⟩
  · unfold roi_target
    rw [if_neg (not_lt.mpr h1), if_neg (fun hc => absurd h2 (not_lt.mpr hc.1))]
  · unfold roi_target
    rw [if_neg (not_lt.mpr (by linarith)), if_neg (fun hc => absurd h (not_lt.mpr hc.2))]

/-- Witness for C4 at the gap value 5.5, which lands in the 0.40 tier. -/
theorem roi_target_tiers_witness :
    (5 : ℚ) ≤ 5.5 ∧ (5.5 : ℚ) < 6 ∧ roi_target 5.5 = 0.40 :=
  ⟨by norm_num, by norm_num, roi_target_tiers.2.1 5.5 (by norm_num) (by norm_num)⟩

/-- C5: the recommended price is `round(a / (1 + r), 2)` for a positive
average net payout `a` and `0` for a non-positive one. -/
theorem rec_price_formula :
    ∀ a r : ℚ, (0 < a → rec_price a r = round2 (a / (1 + r)))
      ∧ (a ≤ 0 → rec_price a r = 0) := by
  intro a r
  constructor
  · intro h
    unfold rec_price
    rw [if_pos h]
  · intro h
    unfold rec_price
    rw [if_neg (not_lt.mpr h)]

/-- Witness for C5 at average net payout 85 and target ROI 0.40. -/
theorem rec_price_formula_witness :
    (0 : ℚ) < 85 ∧ rec_price 85 0.40 = round2 (85 / (1 + 0.40)) :=
  ⟨by norm_num, (rec_price_formula 85 0.40).1 (by norm_num)⟩

/-- C6: for a positive listed price the ROI percentage is
`round((a - listed) / listed * 100, 1)`, and a listed price of zero yields
the placeholder value instead of a division. -/
theorem roi_pct_formula :
    ∀ a listed : ℚ, (0 < listed → roi_pct a listed = round1 ((a - listed) / listed * 100))
      ∧ roi_pct a 0 = 0 := by
  intro a listed
  constructor
  · intro h
    unfold roi_pct
    rw [if_pos h]
  · unfold roi_pct
    rw [if_neg (lt_irrefl 0)]

/-- Witness for C6 at average net payout 100 and listed price 50. -/
theorem roi_pct_formula_witness :
    (0 : ℚ) < 50 ∧ roi_pct 100 50 = round1 ((100 - 50) / 50 * 100) :=
  ⟨by norm_num, (roi_pct_formula 100 50).1 (by norm_num)⟩

/-- C7: an activity entry with a parsed date, the requested size and a
positive amount is kept exactly when its date is on or after `now - 120`
(inclusive lower edge), and a matching entry dated 130 days before `now` is
excluded from the returned list. -/
theorem window_lower_edge_inclusive (now : ℚ) (uk : String) (it : SaleItem) (d : ℚ)
    (hd : it.createdAt = some d) (hs : it.size = "UK " ++ uk) (ha : 0 < it.amount) :
    (it.amount ∈ saleFilter now uk [it] ↔ now - 120 ≤ d)
    ∧ saleFilter now uk
        [{ createdAt := some (now - 130), size := "UK " ++ uk, amount := it.amount }] = [] := by
  have hps : processSale now uk it = if now - 120 ≤ d then some it.amount else none := by
    simp only [processSale, hd, hs, and_true]
    by_cases hw : now - 120 ≤ d
    · simp [hw, ha]
    · simp [hw]
  constructor
  · by_cases hw : now - 120 ≤ d
    · simp [saleFilter, List.filterMap_cons, hps, hw]
    · simp [saleFilter, List.filterMap_cons, hps, hw]
  · have hn : ¬ (now - 120 ≤ now - 130) := by linarith
    simp [saleFilter, List.filterMap_cons, processSale, hn]

/-- Witness for C7: with `now = 120`, a matching sale dated exactly at the
cutoff (day 0) is retained, and a matching sale dated 130 days earlier is
dropped. -/
theorem window_lower_edge_inclusive_witness :
    ((100 : ℚ) ∈ saleFilter 120 "9" [{ createdAt := some 0, size := "UK 9", amount := 100 }]
      ↔ (120 : ℚ) - 120 ≤ 0)
    ∧ saleFilter 120 "9"
        [{ createdAt := some ((120 : ℚ) - 130), size := "UK " ++ "9", amount := 100 }] = [] :=
  window_lower_edge_inclusive 120 "9"
    { createdAt := some 0, size := "UK 9", amount := 100 } 0 rfl rfl (by norm_num)

/-- C8: for a non-empty price list of length `n` the estimated days to sell
is `120 / n`. -/
theorem est_days_window_over_count :
    ∀ sales : List ℚ, sales ≠ [] →
      est_days sales.length = 120 / (sales.length : ℚ) := by
  intro s hs
  unfold est_days
  rw [if_pos (List.length_pos.mpr hs)]

/-- Witness for C8 on a three-element price list, giving 40 days. -/
theorem est_days_window_over_count_witness :
    ([100, 110, 90] : List ℚ) ≠ []
    ∧ est_days ([100, 110, 90] : List ℚ).length = 120 / (([100, 110, 90] : List ℚ).length : ℚ) :=
  ⟨by simp, est_days_window_over_count [100, 110, 90] (by simp)⟩

/-- C9: an activity entry contributes to the price list only if its amount is
strictly positive and its size string is `"UK "` followed by the requested
size, and consequently every element of the returned price list is strictly
positive. -/
theorem sale_filter_positive_sized :
    (∀ (now : ℚ) (uk : String) (it : SaleItem) (a : ℚ),
        processSale now uk it = some a →
        a = it.amount ∧ 0 < it.amount ∧ it.size = "UK " ++ uk)
    ∧ ∀ (now : ℚ) (uk : String) (items : List SaleItem) (x : ℚ),
        x ∈ saleFilter now uk items → 0 < x := by
  refine ⟨fun now uk it a h => processSale_some_inv now uk it a h, ?_⟩
  intro now uk items x hx
  simp only [saleFilter, List.mem_filterMap] at hx
  obtain ⟨it, -, hps⟩ := hx
  obtain ⟨hxa, hpos, -⟩ := processSale_some_inv now uk it x hps
  rw [hxa]
  exact hpos

/-- Witness for C9 on a concrete in-window entry of the requested size. -/
theorem sale_filter_positive_sized_witness :
    processSale 120 "9" { createdAt := some 10, size := "UK 9", amount := 150 } = some 150
    ∧ ((150 : ℚ) = ({ createdAt := some 10, size := "UK 9", amount := 150 } : SaleItem).amount
      ∧ 0 < ({ createdAt := some 10, size := "UK 9", amount := 150 } : SaleItem).amount
      ∧ ({ createdAt := some 10, size := "UK 9", amount := 150 } : SaleItem).size = "UK " ++ "9") := by
  have hstr : "UK " ++ "9" = "UK 9" := rfl
  have h : processSale 120 "9" { createdAt := some 10, size := "UK 9", amount := 150 } = some 150 := by
    norm_num [processSale, hstr]
  exact ⟨h, sale_filter_positive_sized.1 120 "9" _ 150 h⟩

/-- C2 counterexample: with 51 in-window prices of 100 each, the computed
average net payout sums the net payouts of only the first 50 prices yet
divides by 51, so it is 4250/51 rather than the arithmetic mean 85 of the
net payouts of all 51 prices. -/
theorem avg_net_not_full_mean_counterexample :
    pipelineAvgNet (List.replicate 51 (100 : ℚ)) ≠
      ((List.replicate 51 (100 : ℚ)).map calculate_net).sum
        / ((List.replicate 51 (100 : ℚ)).length : ℚ) := by
  have h1 : pipelineAvgNet (List.replicate 51 (100 : ℚ)) = 4250 / 51 := by
    simp [pipelineAvgNet, avg_net, mkFetchResult, List.take_replicate,
      List.map_replicate, List.sum_replicate, calculate_net_at_100]
    norm_num
  have h2 : ((List.replicate 51 (100 : ℚ)).map calculate_net).sum
      / ((List.replicate 51 (100 : ℚ)).length : ℚ) = 85 := by
    simp [List.map_replicate, List.sum_replicate, calculate_net_at_100]
    norm_num
  rw [h1, h2]
  norm_num

/-- C2 amended: for a non-empty in-window price list the computed average net
payout is the sum of the net payouts of the first 50 prices divided by the
full count; in particular, when the list has at most 50 entries it agrees
with the arithmetic mean of the net payouts over all prices. -/
theorem avg_net_truncated_mean :
    ∀ sales : List ℚ, sales ≠ [] →
      pipelineAvgNet sales = ((sales.take 50).map calculate_net).sum / (sales.length : ℚ)
      ∧ (sales.length ≤ 50 →
          pipelineAvgNet sales = (sales.map calculate_net).sum / (sales.length : ℚ)) := by
  intro s hs
  have h1 : pipelineAvgNet s = ((s.take 50).map calculate_net).sum / (s.length : ℚ) := by
    simp only [pipelineAvgNet, avg_net, mkFetchResult]
    rw [if_pos (List.length_pos.mpr hs)]
  exact ⟨h1, fun hle => by rw [h1, List.take_of_length_le hle]⟩

/-- Witness for C2 on the three-element list, where truncation is inactive
and the computed value is the true mean. -/
theorem avg_net_truncated_mean_witness :
    ([100, 110, 90] : List ℚ) ≠ [] ∧ ([100, 110, 90] : List ℚ).length ≤ 50
    ∧ pipelineAvgNet [100, 110, 90] =
        (([100, 110, 90] : List ℚ).map calculate_net).sum / (([100, 110, 90] : List ℚ).length : ℚ) :=
  ⟨by simp, by norm_num,
    (avg_net_truncated_mean [100, 110, 90] (by simp)).2 (by norm_num)⟩

/-- C1 counterexample: a successful fetch with zero in-window sales still
appends a row to the (initially empty) table and reports success, instead of
failing with a "no sales in window" validation error and leaving the table
unmutated. -/
theorem add_entry_empty_window_counterexample :
    (addEntry [] "DZ5485-612" "9" 50 "High (Red)" (some (mkFetchResult "x" "y" 0 0 0 []))).2 = true
    ∧ (addEntry [] "DZ5485-612" "9" 50 "High (Red)"
        (some (mkFetchResult "x" "y" 0 0 0 []))).1.length = 1 :=
  ⟨rfl, rfl⟩

/-- C1 amended: when the fetch succeeds the handler always appends a row and
reports success, even if no sale fell in the 120-day window; with a zero sale
count the appended row records 0 sales, average payout 0, recommended price 0
and estimated days to sell 999.  No "no sales in window" validation failure
exists in the code. -/
theorem add_entry_appends_even_without_sales :
    ∀ (table : List Row) (sku sz : String) (lp : ℚ) (pr : String) (d : FetchResult),
      d.sales_120d = 0 →
      addEntry table sku sz lp pr (some d) = (table ++ [mkRow sku sz lp pr d], true)
      ∧ (mkRow sku sz lp pr d).numSales120d = 0
      ∧ (mkRow sku sz lp pr d).avgPayout = 0
      ∧ (mkRow sku sz lp pr d).recommendedPay = 0
      ∧ (mkRow sku sz lp pr d).estDaysToSell = 999 := by
  intro table sku sz lp pr d h0
  have ha : avg_net d = 0 := by
    simp [avg_net, h0]
  have hd9 : est_days d.sales_120d = 999 := by
    simp [est_days, h0]
  refine ⟨rfl, by simp [mkRow, h0], ?_, ?_, ?_⟩
  · show round2 (avg_net d) = 0
    rw [ha]
    norm_num [round2, pyRound]
  · show rec_price (avg_net d) (roi_target (est_days d.sales_120d)) = 0
    rw [ha]
    simp [rec_price]
  · show round1 (est_days d.sales_120d) = 999
    rw [hd9]
    norm_num [round1, pyRound]

/-- Witness for the amended C1 on a concrete fetch result with an empty
in-window sales list. -/
theorem add_entry_appends_even_without_sales_witness :
    (mkFetchResult "x" "y" 0 0 0 []).sales_120d = 0
    ∧ (addEntry [] "sku1" "9" 50 "High (Red)" (some (mkFetchResult "x" "y" 0 0 0 [])) =
        ([] ++ [mkRow "sku1" "9" 50 "High (Red)" (mkFetchResult "x" "y" 0 0 0 [])], true)
      ∧ (mkRow "sku1" "9" 50 "High (Red)" (mkFetchResult "x" "y" 0 0 0 [])).numSales120d = 0
      ∧ (mkRow "sku1" "9" 50 "High (Red)" (mkFetchResult "x" "y" 0 0 0 [])).avgPayout = 0
      ∧ (mkRow "sku1" "9" 50 "High (Red)" (mkFetchResult "x" "y" 0 0 0 [])).recommendedPay = 0
      ∧ (mkRow "sku1" "9" 50 "High (Red)" (mkFetchResult "x" "y" 0 0 0 [])).estDaysToSell = 999) :=
  ⟨rfl, add_entry_appends_even_without_sales [] "sku1" "9" 50 "High (Red)"
    (mkFetchResult "x" "y" 0 0 0 []) rfl⟩

/-- C10: the pricing computation is deterministic — two invocations with the
same in-window price list and the same listed price produce identical values
for every output field, and in particular the same sale count. -/
theorem pricing_deterministic :
    ∀ (s₁ s₂ : List ℚ) (l₁ l₂ : ℚ), s₁ = s₂ → l₁ = l₂ →
      pricingOutputs s₁ l₁ = pricingOutputs s₂ l₂ ∧ s₁.length = s₂.length := by
  intro s₁ s₂ l₁ l₂ hs hl
  subst hs
  subst hl
  exact ⟨rfl, rfl⟩

/-- Witness for C10 on a concrete price list and listed price. -/
theorem pricing_deterministic_witness :
    ([100, 110, 90] : List ℚ) = [100, 110, 90] ∧ (80 : ℚ) = 80
    ∧ (pricingOutputs [100, 110, 90] 80 = pricingOutputs [100, 110, 90] 80
      ∧ ([100, 110, 90] : List ℚ).length = ([100, 110, 90] : List ℚ).length) :=
  ⟨rfl, rfl, pricing_deterministic [100, 110, 90] [100, 110, 90] 80 80 rfl rfl⟩
